import Mathlib

set_option maxHeartbeats 1000000
set_option maxRecDepth 100000

/-!
Shallow embedding of the tool-calling chat route of this repository.

Source files embedded:
* `src/lib/webSearchTool.ts` (`truncate`, `runWebSearch`) — the Search Tool Adapter;
* `src/lib/serper.ts` (`SerperClient.search`) — the Search Gateway;
* `src/app/api/chat/route.ts` (`callLocalChat`, `POST`) — the Tool-Calling
  Orchestrator and Streaming Response Encoder.

The two outbound collaborators (the local inference backend and the search
provider) are modelled as oracles supplied in a `World` record: each backend
call is answered by `World.first` / `World.second` (an `Except` capturing the
`res.ok` check inside `callLocalChat`, with `Option ChatResponse` modelling
`res.json().catch(() => null)`), and the search provider HTTP call inside
`SerperClient.search` is answered by `World.provider`.  The embedding also
records a trace of the outbound calls made (`Event`), so that statements such
as "the gateway is never invoked" or "no second backend call occurs" are
directly expressible.
-/

/-- Message content: either a plain string or a list of content parts.  The
orchestrator never inspects individual parts (they pass through opaquely), so
each part is kept as an opaque token. -/
inductive ContentVal where
  | str (s : String)
  | parts (ps : List String)
  deriving DecidableEq, Repr

/-- A chat message in an outbound backend payload.  Client-supplied messages
carry only `role` and `content`; the synthetic tool messages pushed by the
orchestrator additionally carry `tool_call_id` and `name` (absent fields are
`none`, mirroring the JS object shapes). -/
structure OutMsg where
  role : String
  content : ContentVal
  tool_call_id : Option String := none
  name : Option String := none
  deriving DecidableEq, Repr

/-- Outcome of `JSON.parse` on a tool-call `arguments` string:
`malformed` stands for any string `JSON.parse` throws on (such as `"{"`),
`obj q m` for a successfully parsed value with its optional `query` and
`max_results` fields. -/
inductive ArgStr where
  | malformed
  | obj (query? : Option String) (max_results? : Option Int)
  deriving DecidableEq, Repr

/-- The `function` field of a tool call (`{name, arguments}`); either runtime
field may be absent. -/
structure ToolFn where
  name? : Option String := none
  arguments? : Option ArgStr := none
  deriving DecidableEq, Repr

/-- A tool call as emitted by the backend: `{id, type, function}`.  `fn?`
models the `function` field (possibly absent at runtime). -/
structure ToolCall where
  id : String
  type : String
  fn? : Option ToolFn := none
  deriving DecidableEq, Repr

/-- The `message` object of a backend choice; `content` may be absent, and
`tool_calls` is kept only when it is an array (the code checks
`Array.isArray`), with possibly-null elements. -/
structure BackendMsg where
  content? : Option String := none
  tool_calls? : Option (List (Option ToolCall)) := none
  deriving DecidableEq, Repr

/-- One backend choice (`{message}`). -/
structure Choice where
  message? : Option BackendMsg := none
  deriving DecidableEq, Repr

/-- A parsed backend chat-completion response body (`{choices}`). -/
structure ChatResponse where
  choices : List Choice := []
  deriving DecidableEq, Repr

/-- One raw organic result from the search provider; the field aliases
(`link`/`url`, `snippet`/`description`) may each be present or absent. -/
structure RawItem where
  title? : Option String := none
  link? : Option String := none
  url? : Option String := none
  snippet? : Option String := none
  description? : Option String := none
  deriving DecidableEq, Repr

/-- A normalized search result `{title, url, snippet}` (all plain strings). -/
structure SearchResult where
  title : String
  url : String
  snippet : String
  deriving DecidableEq, Repr

/-- The Search Tool Adapter's return value `{query, results}`. -/
structure WebSearchOutput where
  query : String
  results : List SearchResult
  deriving DecidableEq, Repr

/-- An outbound inference-backend payload.  `tools` records the names of the
declared tool catalog when the `tools` field is present, `stream?` the
optional `stream` flag. -/
structure Payload where
  model : String
  messages : List OutMsg
  tools : Option (List String)
  tool_choice : String
  stream? : Option Bool
  deriving DecidableEq, Repr

/-- Trace of outbound calls: one `backend` event per `callLocalChat`
invocation (with the payload sent) and one `search` event per
`SerperClient.search` provider call (with the query and the `num` sent). -/
inductive Event where
  | backend (p : Payload)
  | search (query : String) (num : Int)
  deriving DecidableEq, Repr

/-- Outcome of one turn: a `FinalAnswer` text, or the generic failure taken
in the `catch` block. -/
inductive RouteResult where
  | answer (finalContent : String)
  | failed
  deriving DecidableEq, Repr

/-- Body of the HTTP response to the client: an SSE frame stream or a plain
JSON body. -/
inductive HttpBody where
  | stream (frames : List String)
  | json (body : String)
  deriving DecidableEq, Repr

/-- The HTTP response returned by the route handler. -/
structure HttpResponse where
  status : Nat
  body : HttpBody
  deriving DecidableEq, Repr

/-- The parsed inbound request body (`{messages?, model?}`); the whole body is
absent (`none` at the call site) when `request.json()` fails. -/
structure ReqBody where
  messages? : Option (List OutMsg) := none
  model? : Option String := none
  deriving DecidableEq, Repr

/-- The search-provider oracle: answers the HTTP POST made inside
`SerperClient.search` with either a failure (non-success status or timeout,
which the code turns into a thrown error) or a parsed body whose `organic`
field may be absent. -/
abbrev Provider := String → Int → Except String (Option (List RawItem))

/-- The oracle environment of one turn: answers for the first and second
`callLocalChat` invocations and for the search provider. -/
structure World where
  first : Except String (Option ChatResponse)
  second : Except String (Option ChatResponse)
  provider : Provider

/-! ### src/lib/webSearchTool.ts and src/lib/serper.ts -/

/-- Constant `SEARCH_MAX_RESULTS` from webSearchTool.ts (env default 3; unused by the
rest of the file, kept for fidelity). -/
def SEARCH_MAX_RESULTS : Int := 3

/-- Constant `SEARCH_MAX_CHARS` from webSearchTool.ts (env default 600; defined but
never applied anywhere in the source). -/
def SEARCH_MAX_CHARS : Nat := 600

/-- Constant `SERPER_MAX_RESULTS` from webSearchTool.ts. -/
def SERPER_MAX_RESULTS : Int := 5

/-- Function `truncate` from webSearchTool.ts:
`if (!text) return ""; return text.length > max ? text.slice(0, max) + "..." : text;`
(JS string length/slice are modelled on the character list). -/
def truncate (text : String) (max : Nat) : String :=
  if text = "" then ""
  else if text.length > max then String.mk (text.data.take max) ++ "..."
  else text

/-- JS `Array.prototype.slice(0, endIdx)` (a negative end index counts from
the end of the array). -/
def jsSliceTo {α : Type} (endIdx : Int) (l : List α) : List α :=
  if endIdx < 0 then l.take (l.length + endIdx).toNat else l.take endIdx.toNat

/-- The per-item normalization inside `SerperClient.search`:
`{title: item.title ?? "", url: item.link ?? item.url ?? "", snippet: item.snippet ?? item.description ?? ""}`. -/
def normalizeItem (item : RawItem) : SearchResult :=
  { title := item.title?.getD ""
    url := (item.link? <|> item.url?).getD ""
    snippet := (item.snippet? <|> item.description?).getD "" }

/-- Method `SerperClient.search` from serper.ts: records the outbound provider call,
propagates a non-success/timeout failure as a thrown error, otherwise returns
`(data.organic ?? []).slice(0, maxResults).map(normalize)`. -/
def SerperClient.search (provider : Provider) (query : String) (maxResults : Int) :
    List Event × Except String (List SearchResult) :=
  ([Event.search query maxResults],
    match provider query maxResults with
    | .error e => .error e
    | .ok organic? => .ok ((jsSliceTo maxResults (organic?.getD [])).map normalizeItem))

/-- The `enriched` map inside `runWebSearch`:
`{title: r.title ?? "", url: r.link ?? r.url ?? "", snippet: r.snippet ?? r.description ?? ""}`.
On the Gateway's output shape — `title`, `url`, `snippet` all plain strings,
no `link`/`description` fields — each chain reduces to the plain field shown.
Note that neither `truncate` nor `SEARCH_MAX_CHARS` is applied here (or
anywhere): the snippet is passed through unchanged. -/
def enrich (r : SearchResult) : SearchResult :=
  { title := r.title, url := r.url, snippet := r.snippet }

/-- Function `runWebSearch` from webSearchTool.ts: clamps the result count with
`Math.min(Math.max(maxResults, 1), SERPER_MAX_RESULTS)`, calls the Gateway
with the clamped limit, and reshapes the results. -/
def runWebSearch (provider : Provider) (query : String) (maxResults : Int) :
    List Event × Except String WebSearchOutput :=
  let limit := min (max maxResults 1) SERPER_MAX_RESULTS
  match SerperClient.search provider query limit with
  | (ev, .error e) => (ev, .error e)
  | (ev, .ok results) => (ev, .ok { query := query, results := results.map enrich })

/-! ### JSON serialization (`JSON.stringify` on the shapes the route emits) -/

/-- Escape of one character inside a JSON string literal. -/
def jsonEscapeChar (c : Char) : String :=
  if c = '\\' then "\\\\"
  else if c = '"' then "\\\""
  else if c = '\n' then "\\n"
  else if c = '\r' then "\\r"
  else if c = '\t' then "\\t"
  else String.mk [c]

/-- Escape of a whole string body. -/
def jsonEscape (s : String) : String :=
  String.join (s.data.map jsonEscapeChar)

/-- A JSON string literal. -/
def jstr (s : String) : String := "\"" ++ jsonEscape s ++ "\""

/-- Serialization `JSON.stringify` of one reshaped search result. -/
def stringifyResult (r : SearchResult) : String :=
  "\x7b\"title\":" ++ jstr r.title ++ ",\"url\":" ++ jstr r.url ++
    ",\"snippet\":" ++ jstr r.snippet ++ "\x7d"

/-- Serialization `JSON.stringify(result)` for the Adapter's `{query, results}` value, as
stored in a tool message's `content`. -/
def stringifyOutput (o : WebSearchOutput) : String :=
  "\x7b\"query\":" ++ jstr o.query ++ ",\"results\":[" ++
    String.intercalate "," (o.results.map stringifyResult) ++ "]\x7d"

/-! ### src/app/api/chat/route.ts -/

/-- Constant `SYSTEM_MESSAGE` from route.ts (the phase-1 instruction that permits tool
use). -/
def SYSTEM_MESSAGE : OutMsg :=
  { role := "system"
    content := .str "Você é um assistente extremamente direto, objetivo e factual.\n\nVocê tem acesso a ferramentas (functions).  \nQuando a pergunta do usuário envolver fatos reais, tempo, clima, localização, datas, eventos atualizados, estatísticas ou qualquer dado que possa mudar ao longo do tempo, você DEVE usar a ferramenta apropriada antes de responder.\n\nFerramenta disponível:\n- web_search(query, max_results): busca na web e retorna dados recentes.\n\nRegras obrigatórias (siga SEMPRE):\n1. Se a pergunta envolver clima, previsão do tempo, resultados atuais, notícias, valores numéricos, estatísticas, datas, horários, preços, situações específicas, você DEVE usar web_search.\n2. Quando decidir usar a ferramenta, retorne SOMENTE o tool_call no formato pedido. Não escreva mais nada.\n3. Após receber a resposta da ferramenta (role=tool), elabore a resposta final de forma breve, clara e objetiva.\n4. Nunca invente fatos. Nunca estimule, chute ou responda com suposições.  \n   Se você não sabe, ou não tem certeza, use web_search.\n5. Se o usuário apenas pedir opinião, análise ou algo interno ao modelo, responda diretamente.\n6. Mantenha respostas 100% curtas, diretas e sem divagações.\n7. Se utilizou a ferramenta, disponibilize as URLs quando disponíveis.\n8. Quando mostrar código, use sempre blocos Markdown com crase tripla (```) indicando a linguagem (por exemplo, ```ts```, ```js```, ```bash```) e mantenha os trechos o mais curtos possível.\n" }

/-- Constant `SECOND_SYSTEM_MESSAGE` from route.ts (the phase-2 instruction: tool
results are already available, answer in natural language only). -/
def SECOND_SYSTEM_MESSAGE : OutMsg :=
  { role := "system"
    content := .str "Você já recebeu os resultados de uma ferramenta de busca (web_search).\n\nUse SOMENTE essas informações, mais o seu conhecimento próprio, para responder ao usuário.\n\nRegras obrigatórias:\n1. NÃO chame nem sugira novas ferramentas.\n2. NÃO retorne tool_call, JSON ou código. Responda em linguagem natural.\n3. Seja breve, direto e factual.\n4. Resuma os principais dados e, quando possível, inclua as URLs usadas.\n5. Se precisar mencionar comandos ou pequenos trechos de código, use blocos Markdown com crase tripla (```) e indique a linguagem (por exemplo, ```ts```, ```js```, ```bash```)." }

/-- The `tool_calls` guard helpers: `toolCall.function?.name`. -/
def toolFnName (tc : ToolCall) : Option String := tc.fn?.bind ToolFn.name?

/-- Expression `toolCall.function?.arguments ?? "{}"` (the string `"{}"` parses to an
object with no fields). -/
def rawArgsOf (tc : ToolCall) : ArgStr :=
  (tc.fn?.bind ToolFn.arguments?).getD (ArgStr.obj none none)

/-- Statement `let parsedArgs = {query: ""}; try { parsedArgs = JSON.parse(rawArgs) } catch {}`:
a decode failure is swallowed and leaves the `{query: ""}` fallback. -/
def jsonParseArgs : ArgStr → ArgStr
  | .malformed => .obj (some "") none
  | a => a

/-- Field access `parsedArgs.query`. -/
def argQuery? : ArgStr → Option String
  | .obj q _ => q
  | .malformed => none

/-- Field access `parsedArgs.max_results`. -/
def argMax? : ArgStr → Option Int
  | .obj _ m => m
  | .malformed => none

/-- JS truthiness of `parsedArgs.query` (absent or empty is falsy). -/
def queryTruthy (a : ArgStr) : Bool :=
  match argQuery? a with
  | some q => q != ""
  | none => false

/-- Binding `const query = parsedArgs.query` on an accepted request. -/
def toolQuery (tc : ToolCall) : String :=
  (argQuery? (jsonParseArgs (rawArgsOf tc))).getD ""

/-- Binding `const maxResults = parsedArgs.max_results ?? 3`. -/
def toolMax (tc : ToolCall) : Int :=
  (argMax? (jsonParseArgs (rawArgsOf tc))).getD 3

/-- The tool message pushed for an executed web_search call:
`{role: "tool", tool_call_id: toolCall.id, name, content: JSON.stringify(result)}`. -/
def mkToolMsg (tc : ToolCall) (result : WebSearchOutput) : OutMsg :=
  { role := "tool", content := .str (stringifyOutput result)
    tool_call_id := some tc.id, name := some "web_search" }

/-- Acceptance predicate for one entry of `toolCalls`: not null, of type
`"function"`, named `web_search`, and with a truthy decoded `query`. -/
def acceptedB (mc : Option ToolCall) : Bool :=
  match mc with
  | none => false
  | some tc =>
    tc.type == "function" && toolFnName tc == some "web_search"
      && queryTruthy (jsonParseArgs (rawArgsOf tc))

/-- The `for (const toolCall of toolCalls)` loop of `POST`: builds the
`toolMessages` array in input order, skipping null / non-function / unnamed /
undecodable / empty-query entries, and propagating a thrown Gateway error
(which aborts the loop and the turn). -/
def execTools (provider : Provider) : List (Option ToolCall) → List Event × Except String (List OutMsg)
  | [] => ([], .ok [])
  | mc :: rest =>
    match mc with
    | none => execTools provider rest
    | some tc =>
      if tc.type != "function" then execTools provider rest
      else if toolFnName tc == some "web_search" && queryTruthy (jsonParseArgs (rawArgsOf tc)) then
        match runWebSearch provider (toolQuery tc) (toolMax tc) with
        | (ev, .error e) => (ev, .error e)
        | (ev, .ok result) =>
          match execTools provider rest with
          | (ev2, r2) => (ev ++ ev2, r2.map fun msgs => mkToolMsg tc result :: msgs)
      else execTools provider rest

/-- Expression `body?.messages ?? []`. -/
def msgsOf (body? : Option ReqBody) : List OutMsg :=
  (body?.bind ReqBody.messages?).getD []

/-- Expression `body?.model ?? "Ministral-3-8B-Reasoning-2512"`. -/
def modelOf (body? : Option ReqBody) : String :=
  (body?.bind ReqBody.model?).getD "Ministral-3-8B-Reasoning-2512"

/-- The phase-1 payload: `{model, messages: [SYSTEM_MESSAGE, ...messages], tools: [WEB_SEARCH_TOOL], tool_choice: "auto", stream: false}`. -/
def firstPayload (body? : Option ReqBody) : Payload :=
  { model := modelOf body?
    messages := SYSTEM_MESSAGE :: msgsOf body?
    tools := some ["web_search"]
    tool_choice := "auto"
    stream? := some false }

/-- The phase-2 payload: `{model, messages: [SECOND_SYSTEM_MESSAGE, ...messages, ...toolMessages], tool_choice: "none"}` (no `tools`, no `stream`). -/
def secondPayload (body? : Option ReqBody) (toolMessages : List OutMsg) : Payload :=
  { model := modelOf body?
    messages := SECOND_SYSTEM_MESSAGE :: (msgsOf body? ++ toolMessages)
    tools := none
    tool_choice := "none"
    stream? := none }

/-- Expression `(response?.choices?.[0]?.message ?? {})`. -/
def extractMsg (resp : Option ChatResponse) : BackendMsg :=
  ((resp.bind fun r => r.choices.head?).bind Choice.message?).getD {}

/-- The `toolCalls` array of a phase-1 response (empty when `tool_calls` is
absent or not an array). -/
def toolCallsOf (resp : Option ChatResponse) : List (Option ToolCall) :=
  (extractMsg resp).tool_calls?.getD []

/-- The orchestrator core of `POST`, producing the trace of outbound calls and
the turn outcome.  Any thrown error (a failed `callLocalChat` or a Gateway
failure propagated out of the tool loop) lands in the `catch` block, giving
`RouteResult.failed`. -/
def POST (w : World) (body? : Option ReqBody) : List Event × RouteResult :=
  match w.first with
  | .error _ => ([Event.backend (firstPayload body?)], .failed)
  | .ok resp =>
    let firstMessage := extractMsg resp
    let toolCalls := firstMessage.tool_calls?.getD []
    if toolCalls.isEmpty then
      ([Event.backend (firstPayload body?)], .answer (firstMessage.content?.getD ""))
    else
      match execTools w.provider toolCalls with
      | (ev, .error _) => (Event.backend (firstPayload body?) :: ev, .failed)
      | (ev, .ok toolMessages) =>
        match w.second with
        | .error _ =>
          (Event.backend (firstPayload body?) :: ev ++ [Event.backend (secondPayload body? toolMessages)],
            .failed)
        | .ok resp2 =>
          (Event.backend (firstPayload body?) :: ev ++ [Event.backend (secondPayload body? toolMessages)],
            .answer ((extractMsg resp2).content?.getD ""))

/-- Serialization `JSON.stringify({choices: [{delta: {content: finalContent}}]})`. -/
def deltaChunk (finalContent : String) : String :=
  "\x7b\"choices\":[\x7b\"delta\":\x7b\"content\":" ++ jstr finalContent ++ "\x7d\x7d]\x7d"

/-- The Streaming Response Encoder (the `ReadableStream.start` body): one data
frame for a truthy `finalContent`, then always the terminal sentinel frame,
then the stream is closed. -/
def encodeStream (finalContent : String) : List String :=
  (if finalContent = "" then [] else ["data: " ++ deltaChunk finalContent ++ "\n\n"]) ++
    ["data: [DONE]\n\n"]

/-- The generic error body of the `catch` block:
`JSON.stringify({error: "Failed to call local chat backend"})`. -/
def errorBody : String := "\x7b\"error\":\"Failed to call local chat backend\"\x7d"

/-- Assembly of the HTTP response from the turn outcome: a 200 SSE stream, or
the 500 generic JSON error. -/
def routeHttp : RouteResult → HttpResponse
  | .answer c => { status := 200, body := .stream (encodeStream c) }
  | .failed => { status := 500, body := .json errorBody }

/-- Number of inference-backend calls recorded in a trace. -/
def backendCount (tr : List Event) : Nat :=
  (tr.filter fun e => match e with | .backend _ => true | _ => false).length

/-- Number of search-gateway calls recorded in a trace. -/
def searchCount (tr : List Event) : Nat :=
  (tr.filter fun e => match e with | .search _ _ => true | _ => false).length

/-- The payload of the first backend call in a trace, if any. -/
def firstBackendPayload? : List Event → Option Payload
  | [] => none
  | Event.backend p :: _ => some p
  | Event.search _ _ :: rest => firstBackendPayload? rest

/-! ### Helper lemmas about the embedded operations -/

/-- The message produced for an accepted tool call (the fallbacks for dropped
entries and for a failed Gateway call are never reached when the tool loop
returns successfully). -/
def resultMsg (provider : Provider) (mc : Option ToolCall) : OutMsg :=
  match mc with
  | none => mkToolMsg { id := "", type := "" } { query := "", results := [] }
  | some tc =>
    mkToolMsg tc
      (match (runWebSearch provider (toolQuery tc) (toolMax tc)).2 with
        | .ok o => o
        | .error _ => { query := toolQuery tc, results := [] })

/-! ### Concrete sample data used by the closed theorems below -/

/-- A 601-character snippet (one character over the configured budget). -/
def longSnippet : String := String.mk (List.replicate 601 'a')

/-- A provider returning one organic result whose snippet is `longSnippet`. -/
def providerC1 : Provider := fun _ _ =>
  .ok (some [{ title? := some "t", link? := some "u", snippet? := some longSnippet }])

/-- A function tool call whose `arguments` string cannot be decoded. -/
def tcMalformedCall : ToolCall :=
  { id := "call-1", type := "function",
    fn? := some { name? := some "web_search", arguments? := some ArgStr.malformed } }

/-- A phase-1 response carrying one tool call with undecodable arguments. -/
def respToolButMalformed : Option ChatResponse :=
  some
    { choices :=
        [{ message? :=
            some { content? := some "phase one answer"
                   tool_calls? := some [some tcMalformedCall] } }] }

/-- A phase-2 response carrying a plain content answer. -/
def respSecondAnswer : Option ChatResponse :=
  some { choices := [{ message? := some { content? := some "phase two answer" } }] }

/-- World for the C2 counterexample: phase 1 requests one undecodable tool
call, phase 2 answers; the provider is unreachable (and is never called). -/
def worldC2 : World :=
  { first := .ok respToolButMalformed, second := .ok respSecondAnswer,
    provider := fun _ _ => .error "gateway never called" }

/-- A phase-1 response with a direct answer and no tool calls. -/
def respNoTools : Option ChatResponse :=
  some { choices := [{ message? := some { content? := some "direct answer" } }] }

/-- World whose phase 1 answers directly. -/
def worldC2w : World :=
  { first := .ok respNoTools, second := .ok none, provider := fun _ _ => .ok none }

/-- World for the C3 witness. -/
def worldC3 : World :=
  { first := .ok respToolButMalformed, second := .ok respSecondAnswer,
    provider := fun _ _ => .ok none }

/-- A null entry is skipped: wrong `type`. -/
def tcWrongType : Option ToolCall :=
  some
    { id := "a", type := "message"
      fn? := some { name? := some "web_search", arguments? := some (ArgStr.obj (some "x") none) } }

/-- Unknown tool name. -/
def tcWrongName : Option ToolCall :=
  some
    { id := "b", type := "function"
      fn? := some { name? := some "other_tool", arguments? := some (ArgStr.obj (some "x") none) } }

/-- Undecodable arguments. -/
def tcBadArgs : Option ToolCall :=
  some
    { id := "c", type := "function"
      fn? := some { name? := some "web_search", arguments? := some ArgStr.malformed } }

/-- Decodable arguments with an empty query. -/
def tcEmptyQuery : Option ToolCall :=
  some
    { id := "d", type := "function"
      fn? := some { name? := some "web_search", arguments? := some (ArgStr.obj (some "") none) } }

/-- The one accepted request of the mixed list. -/
def tcGoodCall : ToolCall :=
  { id := "e", type := "function",
    fn? := some { name? := some "web_search"
                  arguments? := some (ArgStr.obj (some "lisbon weather") (some 2)) } }

/-- The accepted request as a list entry. -/
def tcGood : Option ToolCall := some tcGoodCall

/-- A mixed request list: null, wrong type, wrong name, undecodable arguments,
empty query, and one accepted request. -/
def tcsMixed : List (Option ToolCall) :=
  [none, tcWrongType, tcWrongName, tcBadArgs, tcEmptyQuery, tcGood]

/-- A provider returning one fixed organic result. -/
def providerOne : Provider := fun _ _ =>
  .ok
    (some
      [{ title? := some "Weather", link? := some "https://w.example"
         snippet? := some "sunny" }])

/-- The Adapter output for the accepted request against `providerOne`. -/
def goodOutput : WebSearchOutput :=
  { query := "lisbon weather",
    results := [{ title := "Weather", url := "https://w.example", snippet := "sunny" }] }

/-- A phase-1 response carrying the accepted tool call. -/
def respWithGoodCall : Option ChatResponse :=
  some { choices := [{ message? := some { content? := none, tool_calls? := some [tcGood] } }] }

/-- World for the C6 witness. -/
def worldC6 : World :=
  { first := .ok respWithGoodCall, second := .ok respSecondAnswer, provider := providerOne }

/-- A phase-1 response answering directly. -/
def respParis : Option ChatResponse :=
  some { choices := [{ message? := some { content? := some "Paris." } }] }

/-- World for the C5 witness: the provider is down, but is never called. -/
def worldC5 : World :=
  { first := .ok respParis, second := .ok none, provider := fun _ _ => .error "down" }

/-- World whose phase-1 backend call fails with a non-success status. -/
def worldC9 : World :=
  { first := .error "HTTP 500", second := .ok none, provider := fun _ _ => .ok none }

/-- World whose backend returns a success status with a malformed body (the
parsed response is null) at both phases. -/
def worldC10 : World :=
  { first := .ok none, second := .ok none, provider := fun _ _ => .ok none }


/-- A web_search tool call with the given query and no `max_results` field. -/
def webSearchCallNoMax (q : String) : ToolCall :=
  { id := "t1", type := "function",
    fn? := some { name? := some "web_search", arguments? := some (ArgStr.obj (some q) none) } }

theorem execTools_dropped (provider : Provider) (tcs : List (Option ToolCall))
    (h : ∀ mc ∈ tcs, acceptedB mc = false) :
    execTools provider tcs = ([], Except.ok []) := by
  induction tcs with
  | nil => rfl
  | cons mc rest ih =>
    have hmc : acceptedB mc = false := h mc (List.mem_cons_self _ _)
    have hrest : ∀ x ∈ rest, acceptedB x = false := fun x hx => h x (List.mem_cons_of_mem _ hx)
    cases mc with
    | none => simpa [execTools] using ih hrest
    | some tc =>
      by_cases ht : tc.type = "function"
      · have hguard :
            (toolFnName tc == some "web_search" && queryTruthy (jsonParseArgs (rawArgsOf tc))) = false := by
          simpa [acceptedB, ht] using hmc
        simp [execTools, ht, hguard, ih hrest]
      · simp [execTools, ht, ih hrest]

theorem execTools_ok_shape (provider : Provider) (tcs : List (Option ToolCall))
    (ev : List Event) (msgs : List OutMsg)
    (h : execTools provider tcs = (ev, Except.ok msgs)) :
    msgs = (tcs.filter acceptedB).map (resultMsg provider) := by
  induction tcs generalizing ev msgs with
  | nil =>
    simp [execTools] at h
    simp [h.2]
  | cons mc rest ih =>
    cases mc with
    | none =>
      rw [show execTools provider (none :: rest) = execTools provider rest from rfl] at h
      simpa [List.filter_cons, show acceptedB none = false from rfl] using ih ev msgs h
    | some tc =>
      by_cases ht : tc.type = "function"
      · by_cases hg :
            (toolFnName tc == some "web_search" && queryTruthy (jsonParseArgs (rawArgsOf tc))) = true
        · rcases hrw : runWebSearch provider (toolQuery tc) (toolMax tc) with ⟨ev1, r1⟩
          cases r1 with
          | error e =>
            have hstep : execTools provider (some tc :: rest) = (ev1, .error e) := by
              simp [execTools, ht, hg, hrw]
            rw [hstep] at h
            simp at h
          | ok result =>
            rcases hrest : execTools provider rest with ⟨ev2, r2⟩
            have hstep : execTools provider (some tc :: rest) =
                (ev1 ++ ev2, r2.map fun ms => mkToolMsg tc result :: ms) := by
              simp [execTools, ht, hg, hrw, hrest]
            rw [hstep] at h
            cases r2 with
            | error e => simp [Except.map] at h
            | ok msgs2 =>
              simp only [Except.map, Prod.mk.injEq, Except.ok.injEq] at h
              have hacc : acceptedB (some tc) = true := by
                simp [acceptedB, ht]
                simpa using hg
              have hres : resultMsg provider (some tc) = mkToolMsg tc result := by
                simp [resultMsg, hrw]
              simp [List.filter_cons, hacc, hres, ← h.2]
              exact ih ev2 msgs2 hrest
        · have hskip : execTools provider (some tc :: rest) = execTools provider rest := by
            simp [execTools, ht, hg]
          have hg' :
              (toolFnName tc == some "web_search" && queryTruthy (jsonParseArgs (rawArgsOf tc))) = false :=
            Bool.eq_false_iff.mpr hg
          have hacc : acceptedB (some tc) = false := by
            simp only [acceptedB]
            rw [Bool.and_assoc, hg', Bool.and_false]
          rw [hskip] at h
          simp [List.filter_cons, hacc]
          exact ih ev msgs h
      · have hskip : execTools provider (some tc :: rest) = execTools provider rest := by
          simp [execTools, ht]
        have hacc : acceptedB (some tc) = false := by
          simp [acceptedB, ht]
        rw [hskip] at h
        simp [List.filter_cons, hacc]
        exact ih ev msgs h

theorem execTools_roles (provider : Provider) (tcs : List (Option ToolCall))
    (ev : List Event) (msgs : List OutMsg)
    (h : execTools provider tcs = (ev, Except.ok msgs)) :
    ∀ m ∈ msgs, m.role = "tool" := by
  intro m hm
  rw [execTools_ok_shape provider tcs ev msgs h] at hm
  obtain ⟨mc, _, rfl⟩ := List.mem_map.mp hm
  cases mc with
  | none => rfl
  | some tc =>
    simp only [resultMsg]
    cases (runWebSearch provider (toolQuery tc) (toolMax tc)).2 <;> rfl

theorem acceptedB_of_malformed (tc : ToolCall)
    (h : tc.fn?.bind ToolFn.arguments? = some ArgStr.malformed) :
    acceptedB (some tc) = false := by
  have hraw : rawArgsOf tc = ArgStr.malformed := by simp [rawArgsOf, h]
  have hq : queryTruthy (jsonParseArgs (rawArgsOf tc)) = false := by
    rw [hraw]
    rfl
  simp only [acceptedB]
  rw [hq, Bool.and_false]

theorem POST_first_error (w : World) (body? : Option ReqBody) (e : String)
    (h : w.first = .error e) :
    POST w body? = ([Event.backend (firstPayload body?)], .failed) := by
  simp [POST, h]

theorem POST_no_toolCalls (w : World) (body? : Option ReqBody) (resp : Option ChatResponse)
    (h : w.first = .ok resp) (h2 : toolCallsOf resp = []) :
    POST w body? =
      ([Event.backend (firstPayload body?)], .answer ((extractMsg resp).content?.getD "")) := by
  have h2' : ((extractMsg resp).tool_calls?.getD []).isEmpty = true := by
    simp only [toolCallsOf] at h2
    simp [h2]
  simp [POST, h, h2']

theorem POST_exec_error (w : World) (body? : Option ReqBody) (resp : Option ChatResponse)
    (ev : List Event) (e : String)
    (h : w.first = .ok resp) (h2 : toolCallsOf resp ≠ [])
    (h3 : execTools w.provider (toolCallsOf resp) = (ev, .error e)) :
    POST w body? = (Event.backend (firstPayload body?) :: ev, .failed) := by
  have h2' : ((extractMsg resp).tool_calls?.getD []).isEmpty = false := by
    simp only [toolCallsOf] at h2
    simpa [List.isEmpty_iff] using h2
  simp only [toolCallsOf] at h3
  simp [POST, h, h2', h3]

theorem POST_second_error (w : World) (body? : Option ReqBody) (resp : Option ChatResponse)
    (ev : List Event) (tmsgs : List OutMsg) (e : String)
    (h : w.first = .ok resp) (h2 : toolCallsOf resp ≠ [])
    (h3 : execTools w.provider (toolCallsOf resp) = (ev, .ok tmsgs))
    (h4 : w.second = .error e) :
    POST w body? =
      (Event.backend (firstPayload body?) :: ev ++ [Event.backend (secondPayload body? tmsgs)],
        .failed) := by
  have h2' : ((extractMsg resp).tool_calls?.getD []).isEmpty = false := by
    simp only [toolCallsOf] at h2
    simpa [List.isEmpty_iff] using h2
  simp only [toolCallsOf] at h3
  simp [POST, h, h2', h3, h4]

theorem POST_success (w : World) (body? : Option ReqBody) (resp : Option ChatResponse)
    (ev : List Event) (tmsgs : List OutMsg) (resp2 : Option ChatResponse)
    (h : w.first = .ok resp) (h2 : toolCallsOf resp ≠ [])
    (h3 : execTools w.provider (toolCallsOf resp) = (ev, .ok tmsgs))
    (h4 : w.second = .ok resp2) :
    POST w body? =
      (Event.backend (firstPayload body?) :: ev ++ [Event.backend (secondPayload body? tmsgs)],
        .answer ((extractMsg resp2).content?.getD "")) := by
  have h2' : ((extractMsg resp).tool_calls?.getD []).isEmpty = false := by
    simp only [toolCallsOf] at h2
    simpa [List.isEmpty_iff] using h2
  simp only [toolCallsOf] at h3
  simp [POST, h, h2', h3, h4]

/-! ### Claim theorems -/

/-- C1 (code bug): given a provider snippet of 601 characters — longer than the
configured budget `SEARCH_MAX_CHARS = 600` — `runWebSearch` emits the snippet
unchanged (601 characters), not the first 600 characters plus the 3-character
ellipsis marker: the `truncate` helper (whose output here would be 603
characters and differs from the emitted snippet) is never applied. -/
theorem C1_snippet_not_truncated :
    (runWebSearch providerC1 "q" 3).2 =
      Except.ok { query := "q"
                  results := [{ title := "t", url := "u", snippet := longSnippet }] } ∧
    longSnippet.length = 601 ∧
    SEARCH_MAX_CHARS = 600 ∧
    truncate longSnippet SEARCH_MAX_CHARS ≠ longSnippet ∧
    (truncate longSnippet SEARCH_MAX_CHARS).length = 603 :=
  ⟨rfl, by decide, rfl, by decide, by decide⟩

/-- C2 counterexample: phase 1 returns one tool call whose arguments cannot be
decoded, so zero ToolInvocationResults are executed — yet the phase-2 backend
call is still made (two backend calls in the trace) and the FinalAnswer is the
phase-2 content, not phase 1's direct answer. -/
theorem C2_counterexample :
    execTools worldC2.provider (toolCallsOf respToolButMalformed) = ([], Except.ok []) ∧
    backendCount (POST worldC2 none).1 = 2 ∧
    (POST worldC2 none).2 = RouteResult.answer "phase two answer" ∧
    (extractMsg respToolButMalformed).content?.getD "" = "phase one answer" ∧
    (POST worldC2 none).2 ≠ RouteResult.answer "phase one answer" :=
  ⟨rfl, rfl, rfl, rfl, by decide⟩

/-- C2 (amended): the phase-2 backend call is made only when the phase-1
response contains at least one tool-call request (even when zero tool
invocations end up executed); whenever phase 1 returns zero tool-call
requests, phase 1's direct answer is the FinalAnswer and no second backend
call occurs. -/
theorem C2_amended (w : World) (body? : Option ReqBody) (resp : Option ChatResponse)
    (h : w.first = .ok resp) :
    (toolCallsOf resp = [] →
      POST w body? = ([Event.backend (firstPayload body?)],
        .answer ((extractMsg resp).content?.getD "")) ∧
      backendCount (POST w body?).1 = 1) ∧
    (backendCount (POST w body?).1 = 2 → toolCallsOf resp ≠ []) := by
  constructor
  · intro h2
    have hp := POST_no_toolCalls w body? resp h h2
    exact ⟨hp, by rw [hp]; rfl⟩
  · intro hc h2
    have hp := POST_no_toolCalls w body? resp h h2
    rw [hp] at hc
    simp [backendCount] at hc

/-- C2 witness: a concrete turn with zero tool-call requests makes one backend
call and answers with phase 1's content. -/
theorem C2_amended_witness :
    POST worldC2w none = ([Event.backend (firstPayload none)], RouteResult.answer "direct answer") ∧
    backendCount (POST worldC2w none).1 = 1 :=
  (C2_amended worldC2w none respNoTools rfl).1 rfl

/-- C3: when the phase-1 response contains at least one tool call and every
tool call's argument payload fails to decode, zero ToolInvocationResults are
produced, the decode failures are swallowed (the loop succeeds), phase 2 is
still invoked with an empty tool-results segment, and the FinalAnswer is the
phase-2 message content. -/
theorem C3_malformed_args_swallowed (w : World) (body? : Option ReqBody)
    (resp resp2 : Option ChatResponse)
    (h1 : w.first = .ok resp) (h2 : toolCallsOf resp ≠ [])
    (h3 : ∀ mc ∈ toolCallsOf resp, ∃ tc, mc = some tc ∧
      tc.fn?.bind ToolFn.arguments? = some ArgStr.malformed)
    (h4 : w.second = .ok resp2) :
    execTools w.provider (toolCallsOf resp) = ([], Except.ok []) ∧
    POST w body? =
      ([Event.backend (firstPayload body?), Event.backend (secondPayload body? [])],
        .answer ((extractMsg resp2).content?.getD "")) := by
  have hdrop : ∀ mc ∈ toolCallsOf resp, acceptedB mc = false := by
    intro mc hmc
    obtain ⟨tc, rfl, hargs⟩ := h3 mc hmc
    exact acceptedB_of_malformed tc hargs
  have hexec := execTools_dropped w.provider _ hdrop
  refine ⟨hexec, ?_⟩
  have hp := POST_success w body? resp [] [] resp2 h1 h2 hexec h4
  simpa using hp

/-- C3 witness: the concrete turn whose single tool call carries the
undecodable argument string. -/
theorem C3_witness :
    execTools worldC3.provider (toolCallsOf respToolButMalformed) = ([], Except.ok []) ∧
    POST worldC3 none =
      ([Event.backend (firstPayload none), Event.backend (secondPayload none [])],
        RouteResult.answer "phase two answer") :=
  C3_malformed_args_swallowed worldC3 none respToolButMalformed respSecondAnswer rfl
    (by decide)
    (by intro mc hmc
        have hmc' : mc ∈ [some tcMalformedCall] := hmc
        rw [List.mem_singleton] at hmc'
        exact ⟨tcMalformedCall, hmc', rfl⟩)
    rfl

/-- C4: whenever the tool loop completes successfully, the produced tool-result
sequence is exactly the accepted subset of the request list — in input order,
one result per accepted request (type `"function"`, name `web_search`,
decodable arguments, non-empty query), none for any other request — and its
length never exceeds the input length. -/
theorem C4_results_shape (provider : Provider) (tcs : List (Option ToolCall))
    (ev : List Event) (msgs : List OutMsg)
    (h : execTools provider tcs = (ev, Except.ok msgs)) :
    msgs = (tcs.filter acceptedB).map (resultMsg provider) ∧
    msgs.length ≤ tcs.length := by
  have hs := execTools_ok_shape provider tcs ev msgs h
  refine ⟨hs, ?_⟩
  rw [hs, List.length_map]
  exact List.length_filter_le _ _

/-- C4 witness: on a mixed list — null entry, wrong type, unknown tool name,
undecodable arguments, empty query, one accepted request — exactly one result
is produced, for the accepted request. -/
theorem C4_witness :
    [mkToolMsg tcGoodCall goodOutput] = (tcsMixed.filter acceptedB).map (resultMsg providerOne) ∧
    ([mkToolMsg tcGoodCall goodOutput] : List OutMsg).length ≤ tcsMixed.length :=
  C4_results_shape providerOne tcsMixed [Event.search "lisbon weather" 2]
    [mkToolMsg tcGoodCall goodOutput] rfl

/-- C5: when the phase-1 response contains zero tool-call requests, the
FinalAnswer equals phase 1's message content verbatim and the search gateway
is never invoked (the trace holds no search event — only the single backend
call). -/
theorem C5_direct_answer (w : World) (body? : Option ReqBody) (resp : Option ChatResponse)
    (h1 : w.first = .ok resp) (h2 : toolCallsOf resp = []) :
    POST w body? = ([Event.backend (firstPayload body?)],
      .answer ((extractMsg resp).content?.getD "")) ∧
    searchCount (POST w body?).1 = 0 ∧
    (∀ c, (extractMsg resp).content? = some c → (POST w body?).2 = .answer c) := by
  have hp := POST_no_toolCalls w body? resp h1 h2
  refine ⟨hp, by rw [hp]; rfl, ?_⟩
  intro c hc
  rw [hp]
  simp [hc]

/-- C5 witness: a concrete no-tool turn answers with phase 1's content and
records no gateway call. -/
theorem C5_witness :
    POST worldC5 none = ([Event.backend (firstPayload none)], RouteResult.answer "Paris.") ∧
    searchCount (POST worldC5 none).1 = 0 :=
  ⟨(C5_direct_answer worldC5 none respParis rfl rfl).1,
   (C5_direct_answer worldC5 none respParis rfl rfl).2.1⟩

/-- C6: the phase-2 message sequence is exactly the phase-2 system instruction,
then the original client conversation unchanged, then the tool results in
execution order; in particular the phase-1 assistant message is omitted and the
phase-1 system instruction never appears in it (as long as the client did not
itself send it). -/
theorem C6_phase2_sequence (w : World) (body? : Option ReqBody)
    (resp resp2 : Option ChatResponse) (ev : List Event) (tmsgs : List OutMsg)
    (h1 : w.first = .ok resp) (h2 : toolCallsOf resp ≠ [])
    (h3 : execTools w.provider (toolCallsOf resp) = (ev, Except.ok tmsgs))
    (h4 : w.second = .ok resp2)
    (h5 : SYSTEM_MESSAGE ∉ msgsOf body?) :
    (secondPayload body? tmsgs).messages = SECOND_SYSTEM_MESSAGE :: (msgsOf body? ++ tmsgs) ∧
    (POST w body?).1 =
      Event.backend (firstPayload body?) :: ev ++ [Event.backend (secondPayload body? tmsgs)] ∧
    SYSTEM_MESSAGE ∉ (secondPayload body? tmsgs).messages := by
  have hp := POST_success w body? resp ev tmsgs resp2 h1 h2 h3 h4
  refine ⟨rfl, by rw [hp], ?_⟩
  have hniq : SYSTEM_MESSAGE ≠ SECOND_SYSTEM_MESSAGE := by decide
  have hroles := execTools_roles w.provider (toolCallsOf resp) ev tmsgs h3
  intro hmem
  simp only [secondPayload, List.mem_cons, List.mem_append] at hmem
  rcases hmem with h | h | h
  · exact hniq h
  · exact h5 h
  · have hrole := hroles _ h
    exact absurd hrole (by decide)

/-- C6 witness: a concrete turn with one executed web_search call; the phase-2
sequence is the phase-2 system message followed by the (empty) client
conversation and the single tool message, and the phase-1 system message is
not in it. -/
theorem C6_witness :
    (secondPayload none [mkToolMsg tcGoodCall goodOutput]).messages =
      SECOND_SYSTEM_MESSAGE :: (msgsOf none ++ [mkToolMsg tcGoodCall goodOutput]) ∧
    (POST worldC6 none).1 =
      Event.backend (firstPayload none) :: [Event.search "lisbon weather" 2] ++
        [Event.backend (secondPayload none [mkToolMsg tcGoodCall goodOutput])] ∧
    SYSTEM_MESSAGE ∉ (secondPayload none [mkToolMsg tcGoodCall goodOutput]).messages :=
  C6_phase2_sequence worldC6 none respWithGoodCall respSecondAnswer
    [Event.search "lisbon weather" 2] [mkToolMsg tcGoodCall goodOutput]
    rfl (by decide) rfl rfl (by simp [msgsOf])

theorem dataFrame_ne_done (s : String) :
    "data: " ++ deltaChunk s ++ "\n\n" ≠ "data: [DONE]\n\n" := by
  intro h
  have hl := congrArg String.length h
  simp only [deltaChunk, jstr, String.length_append] at hl
  have e1 : ("data: " : String).length = 6 := rfl
  have e2 : ("\n\n" : String).length = 2 := rfl
  have e3 : ("data: [DONE]\n\n" : String).length = 14 := rfl
  have e4 : ("\x7b\"choices\":[\x7b\"delta\":\x7b\"content\":" : String).length = 32 := rfl
  have e5 : ("\x7d\x7d]\x7d" : String).length = 4 := rfl
  have e6 : ("\"" : String).length = 1 := rfl
  rw [e1, e2, e3, e4, e5, e6] at hl
  omega

/-- C7: for every FinalAnswer text, the encoder emits — when the text is
non-empty — exactly one data frame whose body is the whole text wrapped in
`{choices: [{delta: {content: ...}}]}`, never split; in every case the stream
ends with exactly one terminal `data: [DONE]` frame, after which nothing
follows (it is the last element). -/
theorem C7_encoder (s : String) :
    (s ≠ "" → encodeStream s = ["data: " ++ deltaChunk s ++ "\n\n", "data: [DONE]\n\n"]) ∧
    (s = "" → encodeStream s = ["data: [DONE]\n\n"]) ∧
    (encodeStream s).getLast? = some "data: [DONE]\n\n" ∧
    (encodeStream s).count "data: [DONE]\n\n" = 1 := by
  by_cases hs : s = ""
  · subst hs
    exact ⟨fun h => absurd rfl h, fun _ => rfl, rfl, rfl⟩
  · have he : encodeStream s = ["data: " ++ deltaChunk s ++ "\n\n", "data: [DONE]\n\n"] := by
      simp [encodeStream, hs]
    refine ⟨fun _ => he, fun h => absurd h hs, ?_, ?_⟩
    · rw [he]; rfl
    · rw [he]
      have hne := dataFrame_ne_done s
      simp [List.count_cons, hne]

/-- C7 witness: the encoder evaluated at a non-empty and at an empty answer. -/
theorem C7_witness :
    encodeStream "hi" = ["data: " ++ deltaChunk "hi" ++ "\n\n", "data: [DONE]\n\n"] ∧
    encodeStream "" = ["data: [DONE]\n\n"] :=
  ⟨(C7_encoder "hi").1 (by decide), (C7_encoder "").2.1 rfl⟩

/-- C8: the Adapter clamps every supplied integer `max_results` into [1, 5]
before calling the Gateway (the single gateway call carries the clamped
value); the clamp is at least 1 and at most 5, values below 1 are raised to 1,
and 9 clamps to 5; and when `max_results` is absent from a decoded tool call,
the orchestrator invokes the Adapter with the default 3. -/
theorem C8_clamp_default (provider : Provider) (q : String) (mr : Int) (hq : q ≠ "") :
    (runWebSearch provider q mr).1 = [Event.search q (min (max mr 1) 5)] ∧
    1 ≤ min (max mr 1) 5 ∧
    min (max mr 1) 5 ≤ 5 ∧
    (mr < 1 → min (max mr 1) 5 = 1) ∧
    min (max (9 : Int) 1) 5 = 5 ∧
    execTools provider [some (webSearchCallNoMax q)] =
      ((runWebSearch provider q 3).1,
        Except.map (fun result => [mkToolMsg (webSearchCallNoMax q) result])
          (runWebSearch provider q 3).2) := by
  have htr : ∀ mm : Int, (runWebSearch provider q mm).1 = [Event.search q (min (max mm 1) 5)] := by
    intro mm
    rcases hp : provider q (min (max mm 1) 5) with e | d <;>
      simp [runWebSearch, SerperClient.search, SERPER_MAX_RESULTS, hp]
  refine ⟨htr mr, le_min (le_max_right _ _) (by norm_num), min_le_right _ _, ?_, by norm_num, ?_⟩
  · intro hlt
    rw [max_eq_right hlt.le, min_eq_left (by norm_num : (1 : Int) ≤ 5)]
  · have hqt : queryTruthy (ArgStr.obj (some q) none) = true := by
      simp [queryTruthy, argQuery?, hq]
    rcases hrw : runWebSearch provider q 3 with ⟨ev1, r1⟩
    cases r1 with
    | error e =>
      simp [execTools, webSearchCallNoMax, toolFnName, rawArgsOf, hqt, toolQuery, toolMax,
        jsonParseArgs, argQuery?, argMax?, hrw, Except.map]
    | ok result =>
      simp [execTools, webSearchCallNoMax, toolFnName, rawArgsOf, hqt, toolQuery, toolMax,
        jsonParseArgs, argQuery?, argMax?, hrw, Except.map]

/-- C8 witness: a below-1 value is raised to 1 and 9 is clamped to 5 in the
gateway call. -/
theorem C8_witness :
    (runWebSearch (fun _ _ => Except.ok none) "rain" 0).1 = [Event.search "rain" 1] ∧
    (runWebSearch (fun _ _ => Except.ok none) "rain" 9).1 = [Event.search "rain" 5] :=
  ⟨((C8_clamp_default (fun _ _ => Except.ok none) "rain" 0 (by decide)).1).trans (by decide),
   ((C8_clamp_default (fun _ _ => Except.ok none) "rain" 9 (by decide)).1).trans (by decide)⟩

/-- C9 counterexample: a phase-1 backend reply with a success status but a
malformed body (the parsed response is null) does not abort the turn — the
client receives a normal 200 stream (empty answer, just the sentinel frame)
instead of the non-success JSON error the claim requires for any malformed
body. -/
theorem C9_counterexample :
    POST worldC10 none = ([Event.backend (firstPayload none)], RouteResult.answer "") ∧
    routeHttp (POST worldC10 none).2 =
      { status := 200, body := HttpBody.stream ["data: [DONE]\n\n"] } :=
  ⟨rfl, rfl⟩

/-- C9 (amended): a non-success inference-backend status at either phase, or a
search-gateway failure (non-success or timeout) propagated out of the tool
loop, aborts the whole turn: the result is the failure outcome — rendered as a
500 response with the generic JSON error body and no stream frames — with no
further backend call after the failure (the traces end at the failing call);
a malformed body on a success status, by contrast, does not abort. -/
theorem C9_upstream_failures (w : World) (body? : Option ReqBody) :
    (∀ e, w.first = .error e →
      POST w body? = ([Event.backend (firstPayload body?)], .failed)) ∧
    (∀ resp ev e, w.first = .ok resp → toolCallsOf resp ≠ [] →
      execTools w.provider (toolCallsOf resp) = (ev, .error e) →
      POST w body? = (Event.backend (firstPayload body?) :: ev, .failed)) ∧
    (∀ resp ev tmsgs e, w.first = .ok resp → toolCallsOf resp ≠ [] →
      execTools w.provider (toolCallsOf resp) = (ev, .ok tmsgs) → w.second = .error e →
      POST w body? =
        (Event.backend (firstPayload body?) :: ev ++ [Event.backend (secondPayload body? tmsgs)],
          .failed)) ∧
    (∀ q mr e, w.provider q (min (max mr 1) 5) = .error e →
      (runWebSearch w.provider q mr).2 = .error e) ∧
    routeHttp RouteResult.failed = { status := 500, body := HttpBody.json errorBody } := by
  refine ⟨?_, ?_, ?_, ?_, rfl⟩
  · exact fun e he => POST_first_error w body? e he
  · exact fun resp ev e h1 h2 h3 => POST_exec_error w body? resp ev e h1 h2 h3
  · exact fun resp ev tmsgs e h1 h2 h3 h4 => POST_second_error w body? resp ev tmsgs e h1 h2 h3 h4
  · intro q mr e hp
    simp [runWebSearch, SerperClient.search, SERPER_MAX_RESULTS, hp]

/-- C9 witness: a concrete phase-1 non-success status aborts the turn with the
generic 500 JSON error and no stream frames. -/
theorem C9_witness :
    POST worldC9 none = ([Event.backend (firstPayload none)], RouteResult.failed) ∧
    routeHttp RouteResult.failed = { status := 500, body := HttpBody.json errorBody } :=
  ⟨(C9_upstream_failures worldC9 none).1 "HTTP 500" rfl,
   (C9_upstream_failures worldC9 none).2.2.2.2⟩

/-- C10 counterexample: a body that lacks the `messages` field but carries a
model identifier is processed with that supplied model, not the default — the
claim's "and the default model identifier" fails for this input (the empty
conversation part does hold). -/
theorem C10_counterexample :
    firstBackendPayload?
        (POST worldC10 (some { messages? := none, model? := some "custom-model" })).1 =
      some (firstPayload (some { messages? := none, model? := some "custom-model" })) ∧
    (firstPayload (some { messages? := none, model? := some "custom-model" })).messages =
      [SYSTEM_MESSAGE] ∧
    (firstPayload (some { messages? := none, model? := some "custom-model" })).model =
      "custom-model" ∧
    "custom-model" ≠ "Ministral-3-8B-Reasoning-2512" :=
  ⟨rfl, rfl, rfl, by decide⟩

/-- C10 (amended): an invalid-JSON body or a body lacking `messages` is not
rejected: the turn proceeds with an empty client conversation (phase 1 sees
only the synthetic system message), the model identifier falls back to the
default whenever the model field is absent as well (both for an invalid-JSON
body and for a parsed body without a model field, such as `{}`), and —
whenever the backend answers normally with no tool calls — the client
receives a normal 200 streamed response, not a client-error status. -/
theorem C10_lenient (w : World) (body? : Option ReqBody)
    (hm : body? = none ∨ ∃ b, body? = some b ∧ b.messages? = none) :
    (firstPayload body?).messages = [SYSTEM_MESSAGE] ∧
    (body?.bind ReqBody.model? = none →
      (firstPayload body?).model = "Ministral-3-8B-Reasoning-2512") ∧
    (∀ resp, w.first = .ok resp → toolCallsOf resp = [] →
      routeHttp (POST w body?).2 =
        { status := 200
          body := HttpBody.stream (encodeStream ((extractMsg resp).content?.getD "")) }) := by
  have hmsgs : msgsOf body? = [] := by
    rcases hm with rfl | ⟨b, rfl, hb⟩
    · rfl
    · simp [msgsOf, hb]
  refine ⟨?_, ?_, ?_⟩
  · simp [firstPayload, hmsgs]
  · intro hmodel
    simp [firstPayload, modelOf, hmodel]
  · intro resp h1 h2
    rw [POST_no_toolCalls w body? resp h1 h2]
    rfl

/-- C10 witness: both the invalid-JSON body (`none`) and the parsed empty
body `{}` (no `messages`, no `model`) yield the synthetic-only conversation
and the default model, and the former with a no-tools backend reply yields a
200 stream. -/
theorem C10_witness :
    (firstPayload none).messages = [SYSTEM_MESSAGE] ∧
    (firstPayload none).model = "Ministral-3-8B-Reasoning-2512" ∧
    (firstPayload (some { messages? := none, model? := none })).messages = [SYSTEM_MESSAGE] ∧
    (firstPayload (some { messages? := none, model? := none })).model =
      "Ministral-3-8B-Reasoning-2512" ∧
    routeHttp (POST worldC10 none).2 =
      { status := 200, body := HttpBody.stream (encodeStream "") } :=
  ⟨(C10_lenient worldC10 none (Or.inl rfl)).1,
   (C10_lenient worldC10 none (Or.inl rfl)).2.1 rfl,
   (C10_lenient worldC10 (some { messages? := none, model? := none })
     (Or.inr ⟨{ messages? := none, model? := none }, rfl, rfl⟩)).1,
   (C10_lenient worldC10 (some { messages? := none, model? := none })
     (Or.inr ⟨{ messages? := none, model? := none }, rfl, rfl⟩)).2.1 rfl,
   (C10_lenient worldC10 none (Or.inl rfl)).2.2 none rfl rfl⟩
